import Mathlib

/-!
Shallow embedding of the FastAPI user-registration/login application
(src/Project/main.py) and verification of its behavioural contract.

The database-backed user store is modelled as a list of rows in rowid
(insertion) order together with the next auto-increment primary key.
Password hashing (passlib argon2) is kept abstract: the handlers are
parametrised over the hash and verify functions.  Signed tokens (jose JWT)
are modelled as an inductive: a well-signed token carrying a claims mapping
and an expiry timestamp, or anything else (malformed, forged, garbage),
which fails signature verification.
-/

namespace Project

/-- A row of the `users` table (class User, main.py lines 33-40). -/
structure User where
  id : Nat
  username : String
  email : String
  hashed_password : String
  created_at : Int
  deriving DecidableEq, Repr

/-- Constant `ACCESS_TOKEN_EXPIRE_MINUTES = 60 * 24 * 7` (main.py line 26). -/
def ACCESS_TOKEN_EXPIRE_MINUTES : Int := 60 * 24 * 7

/-- A JWT as seen by this application: either a token correctly signed with
the application secret, carrying a claims mapping and an expiry timestamp
(seconds), or anything that fails signature verification (forged, truncated,
or otherwise malformed bytes). -/
inductive Token where
  | signed (claims : List (String × String)) (exp : Int)
  | malformed
  deriving DecidableEq, Repr

/-- Function `create_access_token` (main.py lines 63-71): copies the claims dict and
sets `exp = now + expires_delta`, defaulting to
`ACCESS_TOKEN_EXPIRE_MINUTES` minutes.  A `timedelta` of zero is falsy in
Python, so `expires_delta = 0` also selects the default. -/
def create_access_token (data : List (String × String)) (expires_delta : Option Int)
    (now : Int) : Token :=
  let expire : Int :=
    match expires_delta with
    | some d => if d = 0 then now + ACCESS_TOKEN_EXPIRE_MINUTES * 60 else now + d
    | none => now + ACCESS_TOKEN_EXPIRE_MINUTES * 60
  Token.signed data expire

/-- Modelled from the spec: the body of `jose.jwt.decode` is library code not
under src/.  Per spec section 4.2, `parse` "verifies signature and expiry;
returns the claims mapping on success, or none on any invalid signature,
malformed token, or expiry"; a token parsed before its expiry yields its
claims, and at or after expiry yields none.  `decode_token` (main.py lines
73-78) maps every `JWTError` to `None`. -/
def decode_token (now : Int) : Token → Option (List (String × String))
  | Token.malformed => none
  | Token.signed claims exp => if now < exp then some claims else none

/-- Python `str.strip()`: remove leading and trailing whitespace. -/
def py_strip (s : String) : String :=
  String.mk (((s.data.dropWhile Char.isWhitespace).reverse.dropWhile
    Char.isWhitespace).reverse)

/-- Python `str.lower()` (ASCII range): lowercase every character. -/
def py_lower (s : String) : String :=
  String.mk (s.data.map Char.toLower)

/-- Python `int(s)` on a string: strips surrounding whitespace, accepts an
optional sign followed by a non-empty digit run, raises otherwise
(modelled as `none`). -/
def parse_int_str (s : String) : Option Int :=
  let t := py_strip s
  let (sign, digits) :=
    if t.startsWith "-" then ((-1 : Int), t.drop 1)
    else if t.startsWith "+" then ((1 : Int), t.drop 1)
    else ((1 : Int), t)
  if digits.length > 0 && digits.all Char.isDigit then
    some (sign * (digits.foldl (fun acc c => acc * 10 + (c.toNat - 48)) (0 : Nat) : Nat))
  else none

/-- The state of the backing SQLite store: the `users` table rows in rowid
order, and the next value of the auto-increment `id` primary key. -/
structure StoreState where
  users : List User
  next_id : Nat
  deriving DecidableEq, Repr

/-- The empty database created by `Base.metadata.create_all`; SQLite assigns
rowid 1 to the first insert. -/
def initialState : StoreState := { users := [], next_id := 1 }

/-- The email normalisation both handlers apply to form input:
`email.strip().lower()` (main.py lines 168 and 196). -/
def normalize_email (e : String) : String := py_lower (py_strip e)

/-- The lookup `db.query(User).filter(User.email == email.strip().lower()).first()`
performed by `post_login` (main.py line 196). -/
def find_by_email (s : StoreState) (raw : String) : Option User :=
  s.users.find? (fun u => u.email = normalize_email raw)

/-- The lookup `db.query(User).filter(User.id == uid).first()` performed by
`discussions` (main.py line 131). -/
def find_by_id (s : StoreState) (uid : Int) : Option User :=
  s.users.find? (fun u => (u.id : Int) = uid)

/-- Insertion `db.add(user); db.commit()` against the unique index on `email`
(main.py lines 169-174): if a row with the same email exists the commit
raises `IntegrityError` and the rollback leaves the store unchanged
(`none`); otherwise the row is appended with the next rowid. -/
def insert_user (s : StoreState) (username email hashed_password : String)
    (now : Int) : Option (User × StoreState) :=
  if s.users.any (fun u => u.email = email) then none
  else
    let u : User :=
      { id := s.next_id, username := username, email := email,
        hashed_password := hashed_password, created_at := now }
    some (u, { users := s.users ++ [u], next_id := s.next_id + 1 })

/-- The `set_cookie` keyword arguments used by both handlers
(main.py lines 183-189 and 205-211). -/
structure SetCookie where
  name : String
  value : Token
  httponly : Bool
  samesite : String
  max_age : Int
  deriving DecidableEq, Repr

/-- An HTTP response as produced by the handlers: a plain HTML response with
a status code, a redirect optionally setting a cookie, or the rendered
discussions template with its context. -/
inductive Resp where
  | html (status : Nat) (body : String)
  | redirect (status : Nat) (location : String) (cookie : Option SetCookie)
  | page (user : Option User) (users_list : List User)
  deriving DecidableEq, Repr

/-- Body returned when `password != password_confirm` (main.py line 163). -/
def password_mismatch_body : String :=
  "<h3>Пароли не совпадают.</h3><p><a href=\x27/register\x27>Назад</a></p>"

/-- Body returned on duplicate email (main.py line 177). -/
def email_conflict_body : String :=
  "<h3>Пользователь с таким email уже существует.</h3><p><a href=\x27/register\x27>Назад</a></p>"

/-- Body returned when no user matches the login email (main.py line 198). -/
def user_not_found_body : String :=
  "<h3>Пользователь не найден.</h3><p><a href=\x27/login\x27>Назад</a></p>"

/-- Body returned when password verification fails (main.py line 201). -/
def wrong_password_body : String :=
  "<h3>Неверный пароль.</h3><p><a href=\x27/login\x27>Назад</a></p>"

/-- Fallback body when the discussions template is missing (main.py line 142). -/
def fallback_body : String :=
  "<html><body><h2>Страница обсуждений временно недоступна</h2></body></html>"

/-- The `access_token` cookie both success paths set: http-only,
same-site=lax, max-age = `ACCESS_TOKEN_EXPIRE_MINUTES * 60` seconds. -/
def access_cookie (tok : Token) : SetCookie :=
  { name := "access_token", value := tok, httponly := true, samesite := "lax",
    max_age := ACCESS_TOKEN_EXPIRE_MINUTES * 60 }

/-- Handler `post_register` (main.py lines 152-191), parametrised over the password
hash function (`get_password_hash`, a passlib argon2 wrapper).  Returns the
response together with the resulting store state. -/
def post_register (hash_fn : String → String) (s : StoreState) (now : Int)
    (username email password password_confirm : String) : Resp × StoreState :=
  if password ≠ password_confirm then
    (Resp.html 400 password_mismatch_body, s)
  else
    let hashed := hash_fn password
    match insert_user s (py_strip username) (normalize_email email) hashed now with
    | none => (Resp.html 400 email_conflict_body, s)
    | some (u, s2) =>
      let access_token := create_access_token [("sub", toString u.id)] none now
      (Resp.redirect 303 "/discussions" (some (access_cookie access_token)), s2)

/-- Handler `post_login` (main.py lines 193-213), parametrised over password
verification (`verify_password`, a passlib argon2 wrapper). -/
def post_login (verify_fn : String → String → Bool) (s : StoreState) (now : Int)
    (email password : String) : Resp × StoreState :=
  match find_by_email s email with
  | none => (Resp.html 401 user_not_found_body, s)
  | some user =>
    if !(verify_fn password user.hashed_password) then
      (Resp.html 401 wrong_password_body, s)
    else
      let access_token := create_access_token [("sub", toString user.id)] none now
      (Resp.redirect 303 "/discussions" (some (access_cookie access_token)), s)

/-- The session-resolution prefix of `discussions` (main.py lines 124-133):
read the cookie; if present, decode it; if the claims are truthy and contain
`"sub"`, parse the subject as `int` and look the user up; any failure along
the way yields `None` (anonymous). -/
def resolve_session (s : StoreState) (now : Int) (cookie : Option Token) :
    Option User :=
  match cookie with
  | none => none
  | some token =>
    match decode_token now token with
    | none => none
    | some data =>
      if data.isEmpty then none
      else
        match data.lookup "sub" with
        | none => none
        | some sub =>
          match parse_int_str sub with
          | none => none
          | some uid => find_by_id s uid

/-- Insert a user into a list ordered by ascending `id`. -/
def insert_by_id (u : User) : List User → List User
  | [] => [u]
  | v :: vs => if u.id ≤ v.id then u :: v :: vs else v :: insert_by_id u vs

/-- Query `db.query(User).order_by(User.id.asc()).all()` (main.py line 135):
the rows sorted by ascending `id`. -/
def order_by_id_asc : List User → List User
  | [] => []
  | u :: us => insert_by_id u (order_by_id_asc us)

/-- Handler `discussions` (main.py lines 122-143).  `template_available` models
whether the template asset `discussions/discussions.html` exists; when it
does not, `TemplateNotFound` is caught and an inline fallback page is
returned. -/
def discussions (s : StoreState) (now : Int) (cookie : Option Token)
    (template_available : Bool) : Resp :=
  let user_obj := resolve_session s now cookie
  let users_list := order_by_id_asc s.users
  if template_available then Resp.page user_obj users_list
  else Resp.html 200 fallback_body

/-- Handler `get_all_users` (main.py lines 93-99): `db.query(User).all()`, the rows
of the table in rowid order. -/
def get_all_users (s : StoreState) : List User := s.users

/-- Handler `get_all_users_html` (main.py lines 101-119): the same
`db.query(User).all()` row sequence, rendered as an HTML table. -/
def get_all_users_html (s : StoreState) : List User := s.users

/-- Boolean check that a row list is ordered by strictly ascending `id`. -/
def sorted_by_id_asc : List User → Bool
  | [] => true
  | [_] => true
  | u :: v :: rest => decide (u.id < v.id) && sorted_by_id_asc (v :: rest)

/-- The store states this application can reach: the fresh database, closed
under registration requests (the only operation that writes). -/
inductive Reachable : StoreState → Prop
  | init : Reachable initialState
  | register (hash_fn : String → String) (now : Int)
      (username email password password_confirm : String)
      {s : StoreState} (hs : Reachable s) :
      Reachable (post_register hash_fn s now username email password password_confirm).2

/-- Modelled from the spec: a stand-in for the external passlib argon2 hasher
of spec section 4.1, used only to instantiate the hash-function parameter of
the handlers at concrete inputs; its output never equals the plaintext. -/
def model_hash (p : String) : String := "argon2id:" ++ p

/-- Modelled from the spec: the verifier matching `model_hash`, with
`verify(password, hash(password)) = true` and `false` on any mismatch. -/
def model_verify (p h : String) : Bool := h = model_hash p

/-- A store holding one registered user, used as a concrete instance. -/
def store_with_alice : StoreState :=
  { users := [{ id := 1, username := "alice", email := "alice@x.com",
                hashed_password := model_hash "pw1", created_at := 0 }],
    next_id := 2 }

/-! ## Helper lemmas -/

lemma find?_append_of_all_false {p : User → Bool} {l l2 : List User}
    (h : ∀ v ∈ l, p v = false) : (l ++ l2).find? p = l2.find? p := by
  induction l with
  | nil => rfl
  | cons v vs ih =>
    have hv := h v (by simp)
    simp only [List.cons_append, List.find?, hv]
    exact ih fun w hw => h w (by simp [hw])

lemma sorted_append_last : ∀ (l : List User) (u : User),
    sorted_by_id_asc l = true → (∀ v ∈ l, v.id < u.id) →
    sorted_by_id_asc (l ++ [u]) = true
  | [], _, _, _ => rfl
  | [v], u, _, hlt => by
    simp [sorted_by_id_asc, hlt v (by simp)]
  | v :: w :: ws, u, hs, hlt => by
    have h1 : v.id < w.id ∧ sorted_by_id_asc (w :: ws) = true := by
      simpa [sorted_by_id_asc] using hs
    have h2 := sorted_append_last (w :: ws) u h1.2 fun x hx => hlt x (by simp [hx])
    simp only [List.cons_append] at h2 ⊢
    simp [sorted_by_id_asc, h2, h1.1]

lemma order_by_id_asc_of_sorted : ∀ l : List User,
    sorted_by_id_asc l = true → order_by_id_asc l = l
  | [], _ => rfl
  | [_], _ => rfl
  | v :: w :: ws, hs => by
    have h1 : v.id < w.id ∧ sorted_by_id_asc (w :: ws) = true := by
      simpa [sorted_by_id_asc] using hs
    have h2 := order_by_id_asc_of_sorted (w :: ws) h1.2
    rw [show order_by_id_asc (v :: w :: ws) =
        insert_by_id v (order_by_id_asc (w :: ws)) from rfl, h2]
    simp [insert_by_id, Nat.le_of_lt h1.1]

lemma reachable_invariant {s : StoreState} (h : Reachable s) :
    sorted_by_id_asc s.users = true ∧ ∀ u ∈ s.users, u.id < s.next_id := by
  induction h with
  | init => exact ⟨rfl, by simp [initialState]⟩
  | register hash_fn now username email password password_confirm hs ih =>
    rename_i s
    by_cases hpw : password ≠ password_confirm
    · simpa [post_register, hpw] using ih
    · by_cases hdup : s.users.any (fun u => u.email = normalize_email email) = true
      · simpa [post_register, hpw, insert_user, hdup] using ih
      · simp only [Bool.not_eq_true] at hdup
        simp only [post_register, hpw, insert_user, hdup, if_neg, ite_false,
          Bool.false_eq_true, if_false]
        constructor
        · exact sorted_append_last s.users _ ih.1 fun v hv => ih.2 v hv
        · intro u hu
          rcases List.mem_append.1 hu with hold | hnew
          · exact Nat.lt_succ_of_lt (ih.2 u hold)
          · simp only [List.mem_singleton] at hnew
            subst hnew
            exact Nat.lt_succ_self _

lemma post_register_fresh_eq (hash_fn : String → String) (s : StoreState) (now : Int)
    (username email password : String)
    (hfresh : ∀ u ∈ s.users, u.email ≠ normalize_email email) :
    post_register hash_fn s now username email password password =
      (Resp.redirect 303 "/discussions" (some
        { name := "access_token",
          value := Token.signed [("sub", toString s.next_id)]
            (now + ACCESS_TOKEN_EXPIRE_MINUTES * 60),
          httponly := true, samesite := "lax",
          max_age := ACCESS_TOKEN_EXPIRE_MINUTES * 60 }),
       { users := s.users ++
           [{ id := s.next_id, username := py_strip username,
              email := normalize_email email,
              hashed_password := hash_fn password, created_at := now }],
         next_id := s.next_id + 1 }) := by
  have hany : s.users.any (fun u => u.email = normalize_email email) = false := by
    simp only [List.any_eq_false, decide_eq_true_eq]
    exact hfresh
  simp [post_register, insert_user, hany, create_access_token, access_cookie]

lemma resolve_session_mem (s : StoreState) (now : Int) (cookie : Option Token)
    (u : User) (h : resolve_session s now cookie = some u) : u ∈ s.users := by
  unfold resolve_session at h
  repeat' split at h
  all_goals first
    | exact Option.noConfusion h
    | exact List.mem_of_find?_eq_some h

/-! ## Claims -/

/-- C2: for every store state, time and cookie value (absent, malformed,
forged, expired, lacking a subject claim, with a non-integer subject, or
with a subject id matching no stored user), session resolution never fails:
it yields either an existing stored user or anonymous (`none`), and the
discussions handler proceeds as for a guest, producing either the rendered
page or the inline fallback. -/
theorem session_resolution_never_fails (s : StoreState) (now : Int)
    (cookie : Option Token) (template_available : Bool) :
    (resolve_session s now cookie = none ∨
      ∃ u, resolve_session s now cookie = some u ∧ u ∈ s.users) ∧
    (discussions s now cookie template_available =
        Resp.page (resolve_session s now cookie) (order_by_id_asc s.users) ∨
      discussions s now cookie template_available = Resp.html 200 fallback_body) := by
  constructor
  · cases hres : resolve_session s now cookie with
    | none => exact Or.inl rfl
    | some u => exact Or.inr ⟨u, rfl, resolve_session_mem s now cookie u hres⟩
  · cases template_available with
    | false => exact Or.inr (by simp [discussions])
    | true => exact Or.inl (by simp [discussions])

/-- C5: a token issued with subject X and the default TTL, when parsed
before its expiry timestamp `now + 604800`, yields a claims mapping whose
subject is X's id as a string; parsed at or after expiry it yields none. -/
theorem token_issue_then_parse (x : Nat) (now t : Int) :
    (t < now + ACCESS_TOKEN_EXPIRE_MINUTES * 60 →
      decode_token t (create_access_token [("sub", toString x)] none now) =
          some [("sub", toString x)] ∧
        ([("sub", toString x)]).lookup "sub" = some (toString x)) ∧
    (now + ACCESS_TOKEN_EXPIRE_MINUTES * 60 ≤ t →
      decode_token t (create_access_token [("sub", toString x)] none now) = none) := by
  constructor
  · intro hlt
    exact ⟨by simp [create_access_token, decode_token, hlt], by simp [List.lookup]⟩
  · intro hge
    simp [create_access_token, decode_token, Int.not_lt.mpr hge]

theorem token_issue_then_parse_witness :
    (decode_token 100 (create_access_token [("sub", toString 7)] none 0) =
        some [("sub", toString 7)] ∧
      ([("sub", toString 7)]).lookup "sub" = some (toString 7)) ∧
    decode_token 604800 (create_access_token [("sub", toString 7)] none 0) = none :=
  ⟨(token_issue_then_parse 7 0 100).1 (by decide),
   (token_issue_then_parse 7 0 604800).2 (by decide)⟩

/-- C7: when the discussions template asset is missing, the handler catches
`TemplateNotFound` and returns the minimal inline fallback page (status 200)
instead of a server error, for every store state, time and cookie. -/
theorem discussions_missing_template_fallback (s : StoreState) (now : Int)
    (cookie : Option Token) :
    discussions s now cookie false = Resp.html 200 fallback_body := by
  simp [discussions]

/-- C8: for every registration request in which `password` differs from
`password_confirm`, POST /register returns a 400 response with the
user-facing HTML mismatch body, leaving the store unchanged. -/
theorem register_password_mismatch_400 (hash_fn : String → String) (s : StoreState)
    (now : Int) (username email password password_confirm : String)
    (h : password ≠ password_confirm) :
    post_register hash_fn s now username email password password_confirm =
      (Resp.html 400 password_mismatch_body, s) := by
  simp [post_register, h]

theorem register_password_mismatch_400_witness :
    post_register model_hash initialState 0 "alice" "a@x.com" "pw1" "pw2" =
      (Resp.html 400 password_mismatch_body, initialState) :=
  register_password_mismatch_400 model_hash initialState 0 "alice" "a@x.com"
    "pw1" "pw2" (by decide)

/-- C9: when `password` differs from `password_confirm`, the handler returns
before any store interaction: the store state is exactly unchanged, and the
result does not depend on the hash function at all (the password is never
hashed). -/
theorem register_password_mismatch_frame (hash_fn hash_fn2 : String → String)
    (s : StoreState) (now : Int) (username email password password_confirm : String)
    (h : password ≠ password_confirm) :
    (post_register hash_fn s now username email password password_confirm).2 = s ∧
    post_register hash_fn s now username email password password_confirm =
      post_register hash_fn2 s now username email password password_confirm := by
  simp [post_register, h]

theorem register_password_mismatch_frame_witness :
    (post_register model_hash store_with_alice 0 "bob" "b@x.com" "pw1" "pw2").2 =
      store_with_alice ∧
    post_register model_hash store_with_alice 0 "bob" "b@x.com" "pw1" "pw2" =
      post_register (fun p => p) store_with_alice 0 "bob" "b@x.com" "pw1" "pw2" :=
  register_password_mismatch_frame model_hash (fun p => p) store_with_alice 0 "bob"
    "b@x.com" "pw1" "pw2" (by decide)

/-- C3: a registration whose password matches its confirmation and whose
trimmed-lowercased email matches no stored user succeeds: it appends a user
with trimmed username, trimmed-and-lowercased email and the hash of the
password, issues a token whose subject is the new user's id, and returns a
303 redirect to /discussions with an http-only, same-site-lax
`access_token` cookie whose max-age equals the token TTL of 604800 seconds;
a stored hash differing from the plaintext means the plaintext is never
stored. -/
theorem register_fresh_email_succeeds (hash_fn : String → String) (s : StoreState)
    (now : Int) (username email password password_confirm : String)
    (hpw : password = password_confirm)
    (hfresh : ∀ u ∈ s.users, u.email ≠ normalize_email email) :
    post_register hash_fn s now username email password password_confirm =
      (Resp.redirect 303 "/discussions" (some
        { name := "access_token",
          value := Token.signed [("sub", toString s.next_id)]
            (now + ACCESS_TOKEN_EXPIRE_MINUTES * 60),
          httponly := true, samesite := "lax",
          max_age := ACCESS_TOKEN_EXPIRE_MINUTES * 60 }),
       { users := s.users ++
           [{ id := s.next_id, username := py_strip username,
              email := normalize_email email,
              hashed_password := hash_fn password, created_at := now }],
         next_id := s.next_id + 1 }) ∧
    ACCESS_TOKEN_EXPIRE_MINUTES * 60 = 604800 ∧
    (hash_fn password ≠ password →
      ∀ u ∈ (post_register hash_fn s now username email password password_confirm).2.users,
        u ∉ s.users → u.hashed_password ≠ password) := by
  subst hpw
  have hmain := post_register_fresh_eq hash_fn s now username email password hfresh
  refine ⟨hmain, by norm_num [ACCESS_TOKEN_EXPIRE_MINUTES], ?_⟩
  intro hne u hu hnot
  rw [hmain] at hu
  rcases List.mem_append.1 hu with hold | hnew
  · exact absurd hold hnot
  · simp only [List.mem_singleton] at hnew
    subst hnew
    simpa using hne

theorem register_fresh_email_succeeds_witness :
    (post_register model_hash initialState 0 "alice" " Alice@X.com " "pw1" "pw1" =
      (Resp.redirect 303 "/discussions" (some
        { name := "access_token",
          value := Token.signed [("sub", toString initialState.next_id)]
            (0 + ACCESS_TOKEN_EXPIRE_MINUTES * 60),
          httponly := true, samesite := "lax",
          max_age := ACCESS_TOKEN_EXPIRE_MINUTES * 60 }),
       { users := initialState.users ++
           [{ id := initialState.next_id, username := py_strip "alice",
              email := normalize_email " Alice@X.com ",
              hashed_password := model_hash "pw1", created_at := 0 }],
         next_id := initialState.next_id + 1 })) ∧
    ACCESS_TOKEN_EXPIRE_MINUTES * 60 = 604800 ∧
    (model_hash "pw1" ≠ "pw1" →
      ∀ u ∈ (post_register model_hash initialState 0 "alice" " Alice@X.com "
          "pw1" "pw1").2.users,
        u ∉ initialState.users → u.hashed_password ≠ "pw1") :=
  register_fresh_email_succeeds model_hash initialState 0 "alice" " Alice@X.com "
    "pw1" "pw1" rfl (by simp [initialState])

/-- C1 as stated is false: a request whose normalized email collides with a
stored user but whose password differs from its confirmation is rejected
with the password-mismatch 400 body, not the conflict body. -/
theorem register_duplicate_email_conflict_counterexample :
    (∃ u ∈ store_with_alice.users,
      u.email = normalize_email " Alice@X.com ") ∧
    (post_register model_hash store_with_alice 0 "bob" " Alice@X.com " "a" "b").1 ≠
      Resp.html 400 email_conflict_body ∧
    (post_register model_hash store_with_alice 0 "bob" " Alice@X.com " "a" "b").1 =
      Resp.html 400 password_mismatch_body := by
  decide

/-- C1 (amended: the request must also pass the password-confirmation gate):
a registration whose password matches its confirmation and whose normalized
email equals the email of an already-stored user returns the 400 conflict
response, the transaction is rolled back leaving the store exactly
unchanged, and the number of stored users is unchanged. -/
theorem register_duplicate_email_conflict (hash_fn : String → String) (s : StoreState)
    (now : Int) (username email password password_confirm : String)
    (hpw : password = password_confirm)
    (hdup : ∃ u ∈ s.users, u.email = normalize_email email) :
    post_register hash_fn s now username email password password_confirm =
      (Resp.html 400 email_conflict_body, s) ∧
    (post_register hash_fn s now username email password password_confirm).2.users.length =
      s.users.length := by
  subst hpw
  have hany : s.users.any (fun u => u.email = normalize_email email) = true := by
    simp only [List.any_eq_true, decide_eq_true_eq]
    exact hdup
  have hmain : post_register hash_fn s now username email password password =
      (Resp.html 400 email_conflict_body, s) := by
    simp [post_register, insert_user, hany]
  exact ⟨hmain, by rw [hmain]⟩

theorem register_duplicate_email_conflict_witness :
    (post_register model_hash store_with_alice 0 "bob" "ALICE@x.com  " "zz" "zz" =
      (Resp.html 400 email_conflict_body, store_with_alice)) ∧
    (post_register model_hash store_with_alice 0 "bob" "ALICE@x.com  "
        "zz" "zz").2.users.length = store_with_alice.users.length :=
  register_duplicate_email_conflict model_hash store_with_alice 0 "bob"
    "ALICE@x.com  " "zz" "zz" rfl (by decide)

/-- C4: for every store state and login request, a normalized-email lookup
miss yields 401; a hit whose password verification fails yields 401; a hit
whose verification succeeds yields a 303 redirect with the `access_token`
cookie set. -/
theorem login_auth_cases (verify_fn : String → String → Bool) (s : StoreState)
    (now : Int) (email password : String) :
    (find_by_email s email = none →
      post_login verify_fn s now email password =
        (Resp.html 401 user_not_found_body, s)) ∧
    (∀ u, find_by_email s email = some u →
      verify_fn password u.hashed_password = false →
      post_login verify_fn s now email password =
        (Resp.html 401 wrong_password_body, s)) ∧
    (∀ u, find_by_email s email = some u →
      verify_fn password u.hashed_password = true →
      post_login verify_fn s now email password =
        (Resp.redirect 303 "/discussions" (some
          { name := "access_token",
            value := Token.signed [("sub", toString u.id)]
              (now + ACCESS_TOKEN_EXPIRE_MINUTES * 60),
            httponly := true, samesite := "lax",
            max_age := ACCESS_TOKEN_EXPIRE_MINUTES * 60 }), s)) := by
  refine ⟨fun hnone => ?_, fun u hu hv => ?_, fun u hu hv => ?_⟩
  · simp [post_login, hnone]
  · simp [post_login, hu, hv]
  · simp [post_login, hu, hv, create_access_token, access_cookie]

theorem login_auth_cases_witness :
    (post_login model_verify store_with_alice 5 "nobody@y.com" "pw1" =
      (Resp.html 401 user_not_found_body, store_with_alice)) ∧
    (post_login model_verify store_with_alice 5 " ALICE@x.com" "bad" =
      (Resp.html 401 wrong_password_body, store_with_alice)) ∧
    (post_login model_verify store_with_alice 5 " ALICE@x.com" "pw1" =
      (Resp.redirect 303 "/discussions" (some
        { name := "access_token",
          value := Token.signed [("sub", toString (1 : Nat))]
            (5 + ACCESS_TOKEN_EXPIRE_MINUTES * 60),
          httponly := true, samesite := "lax",
          max_age := ACCESS_TOKEN_EXPIRE_MINUTES * 60 }), store_with_alice)) :=
  ⟨(login_auth_cases model_verify store_with_alice 5 "nobody@y.com" "pw1").1
     (by decide),
   (login_auth_cases model_verify store_with_alice 5 " ALICE@x.com" "bad").2.1
     { id := 1, username := "alice", email := "alice@x.com",
       hashed_password := model_hash "pw1", created_at := 0 } (by decide) (by decide),
   (login_auth_cases model_verify store_with_alice 5 " ALICE@x.com" "pw1").2.2
     { id := 1, username := "alice", email := "alice@x.com",
       hashed_password := model_hash "pw1", created_at := 0 } (by decide) (by decide)⟩

/-- C6: in every reachable store state, both debug listing endpoints return
the users ordered by id ascending, and the discussions page's
`order_by(User.id.asc())` listing is likewise ordered (sorting the already
ordered rows is the identity). -/
theorem user_listings_sorted_by_id (s : StoreState) (h : Reachable s) :
    sorted_by_id_asc (get_all_users s) = true ∧
    sorted_by_id_asc (get_all_users_html s) = true ∧
    order_by_id_asc s.users = s.users ∧
    sorted_by_id_asc (order_by_id_asc s.users) = true := by
  have hinv := reachable_invariant h
  refine ⟨hinv.1, hinv.1, order_by_id_asc_of_sorted _ hinv.1, ?_⟩
  rw [order_by_id_asc_of_sorted _ hinv.1]
  exact hinv.1

theorem user_listings_sorted_by_id_witness :
    sorted_by_id_asc (get_all_users (post_register model_hash
        (post_register model_hash initialState 0 "alice" "alice@x.com" "pw1" "pw1").2
        0 "bob" "bob@y.com" "pw2" "pw2").2) = true ∧
    sorted_by_id_asc (get_all_users_html (post_register model_hash
        (post_register model_hash initialState 0 "alice" "alice@x.com" "pw1" "pw1").2
        0 "bob" "bob@y.com" "pw2" "pw2").2) = true ∧
    order_by_id_asc (post_register model_hash
        (post_register model_hash initialState 0 "alice" "alice@x.com" "pw1" "pw1").2
        0 "bob" "bob@y.com" "pw2" "pw2").2.users =
      (post_register model_hash
        (post_register model_hash initialState 0 "alice" "alice@x.com" "pw1" "pw1").2
        0 "bob" "bob@y.com" "pw2" "pw2").2.users ∧
    sorted_by_id_asc (order_by_id_asc (post_register model_hash
        (post_register model_hash initialState 0 "alice" "alice@x.com" "pw1" "pw1").2
        0 "bob" "bob@y.com" "pw2" "pw2").2.users) = true :=
  user_listings_sorted_by_id _
    (Reachable.register model_hash 0 "bob" "bob@y.com" "pw2" "pw2"
      (Reachable.register model_hash 0 "alice" "alice@x.com" "pw1" "pw1"
        Reachable.init))

/-- C10: registration and login normalize the email identically (trim then
lowercase), so after a successful registration with raw email e, the login
lookup with any raw string whose trimmed-lowercased form agrees with e's
finds exactly the newly created user. -/
theorem register_then_login_same_normalization (hash_fn : String → String)
    (s : StoreState) (now : Int) (username email email2 password : String)
    (hfresh : ∀ u ∈ s.users, u.email ≠ normalize_email email)
    (hnorm : normalize_email email2 = normalize_email email) :
    find_by_email
        (post_register hash_fn s now username email password password).2 email2 =
      some { id := s.next_id, username := py_strip username,
             email := normalize_email email,
             hashed_password := hash_fn password, created_at := now } := by
  rw [post_register_fresh_eq hash_fn s now username email password hfresh]
  unfold find_by_email
  rw [hnorm]
  rw [find?_append_of_all_false fun v hv => by simp [hfresh v hv]]
  simp [List.find?]

theorem register_then_login_same_normalization_witness :
    find_by_email
        (post_register model_hash initialState 0 "alice" " Alice@X.com "
          "pw1" "pw1").2 "ALICE@x.com  " =
      some { id := initialState.next_id, username := py_strip "alice",
             email := normalize_email " Alice@X.com ",
             hashed_password := model_hash "pw1", created_at := 0 } :=
  register_then_login_same_normalization model_hash initialState 0 "alice"
    " Alice@X.com " "ALICE@x.com  " "pw1" (by simp [initialState]) (by decide)

end Project
